import Mathlib

/-!
Verification development for the push-to-toggle dictation utility
(`app/recorder.py`, `app/main.py`, `app/transcriber.py`, `app/hotkey_win.py`,
`app/settings.py`).  The Python source is shallowly embedded: pure logic
becomes Lean functions, the threaded orchestrator becomes an explicit
event-step function on a small system state, and OS / subprocess effects
become explicit environment parameters.
-/

namespace StdWhisper

/-! ## Settings (`app/settings.py`)

`Settings` mirrors the pydantic model's fields that the core logic reads.
`temperature` is a Python float compared exactly against `0.0` and rendered
by `str`; it is embedded as a rational with exact comparison, and its string
rendering is taken as a parameter where it matters (float formatting is the
only part of the source not embedded exactly). -/

structure Settings where
  hotkey : String
  language : String
  model_path : String
  whisper_cli_path : String
  auto_paste : Bool
  temp_dir : String
  sample_rate : Nat
  n_gpu_layers : Int
  initial_prompt : String
  sound_enabled : Bool
  best_of : Int
  beam_size : Int
  temperature : ℚ
  carry_initial_prompt : Bool
  silence_threshold : Int
  deriving Repr, DecidableEq

/-- Default field values of `Settings` in `app/settings.py`. -/
def defaultSettings : Settings :=
  { hotkey := "<ctrl>+<alt>+<shift>+h"
    language := "ja"
    model_path := "./models/ggml-small.bin"
    whisper_cli_path := "./bin/whisper-cli.exe"
    auto_paste := false
    temp_dir := ""
    sample_rate := 16000
    n_gpu_layers := 0
    initial_prompt := ""
    sound_enabled := true
    best_of := 5
    beam_size := 5
    temperature := 0
    carry_initial_prompt := false
    silence_threshold := 500 }

/-! ## Recorder (`app/recorder.py`)

Captured frames are blocks of `int16` samples; `numpy` casts them to
`float32` (exact on the `int16` range) and takes `max(abs(...))`, compared
with `<` against `silence_threshold`. -/

/-- Result of `Recorder.stop`: either no artifact (the Python code returns
`""`) or a saved recording (the Python code returns the wav path; the
samples written there are carried instead of the path). -/
inductive StopResult where
  | noArtifact : StopResult
  | artifact (samples : List Int) : StopResult
  deriving Repr, DecidableEq

/-- `np.max(np.abs(recording))` of the concatenated int16 samples
(float32 is exact on this range, so amplitude arithmetic is integral). -/
def maxAbsAmp (samples : List Int) : Nat :=
  (samples.map Int.natAbs).foldr max 0

/-- `Recorder.stop(discard)` (`app/recorder.py` lines 74-121).
Guard order follows the source: not recording, `discard`, no frames,
then the silence check `max_amp < silence_threshold`; `np.max` on an empty
concatenation raises and the surrounding `except` returns `""`, hence the
empty-recording branch. -/
def recorderStop (is_recording discard : Bool) (frames : List (List Int))
    (silence_threshold : Int) : StopResult :=
  if !is_recording then .noArtifact
  else if discard then .noArtifact
  else if frames.isEmpty then .noArtifact
  else
    let recording := frames.flatten
    if recording.isEmpty then .noArtifact
    else if (maxAbsAmp recording : Int) < silence_threshold then .noArtifact
    else .artifact recording

/-! ## Orchestrator (`app/main.py`)

`MainApp.on_hotkey` / `stop_and_transcribe` / `_transcribe_task` form a
state machine on `{IDLE, RECORDING, TRANSCRIBING}`.  `self.lock` serializes
every phase read/write, so the embedding is a step function over a
serialized event sequence.  `pending` records that a `_transcribe_task`
thread has been spawned and has not yet run its `finally` block; a
`transcribeDone` event is only deliverable while such a thread exists. -/

inductive Phase where
  | IDLE : Phase
  | RECORDING : Phase
  | TRANSCRIBING : Phase
  deriving Repr, DecidableEq

/-- Events serialized through `MainApp.lock`: a hotkey press (carrying the
`Recorder.stop` outcome that `stop_and_transcribe` observes if it runs),
or the completion of a `_transcribe_task` thread carrying the transcriber's
returned text. -/
inductive Event where
  | hotkey (stopRes : StopResult) : Event
  | transcribeDone (text : String) : Event
  deriving Repr, DecidableEq

/-- Observable side effects of one orchestrator step. -/
inductive Action where
  | playStart : Action
  | startCapture : Action
  | stopCapture : Action
  | startTranscription (samples : List Int) : Action
  | logIgnoredHotkey : Action
  | deliver (text : String) : Action
  | playFinish : Action
  | cleanupArtifact : Action
  deriving Repr, DecidableEq

/-- Orchestrator state: `MainApp.state` plus whether a `_transcribe_task`
thread is outstanding. -/
structure Sys where
  phase : Phase
  pending : Bool
  deriving Repr, DecidableEq

/-- Initial state: `MainApp.__init__` sets `self.state = IDLE`; no worker
thread exists. -/
def initSys : Sys := ⟨.IDLE, false⟩

/-- One serialized orchestrator step (`app/main.py` lines 68-113).
* `on_hotkey`: in `TRANSCRIBING` the press is logged and dropped; in `IDLE`
  `start_recording` plays the cue, starts capture and sets `RECORDING`; in
  `RECORDING` `stop_and_transcribe` stops capture, and either returns to
  `IDLE` (no artifact) or sets `TRANSCRIBING` and spawns `_transcribe_task`.
* `_transcribe_task` completion: delivers non-empty text (clipboard, paste,
  finish cue), then in `finally` deletes the artifact and sets `IDLE`
  unconditionally. -/
def sysStep : Sys → Event → Sys × List Action
  | ⟨.TRANSCRIBING, p⟩, .hotkey _ => (⟨.TRANSCRIBING, p⟩, [.logIgnoredHotkey])
  | ⟨.IDLE, p⟩, .hotkey _ => (⟨.RECORDING, p⟩, [.playStart, .startCapture])
  | ⟨.RECORDING, p⟩, .hotkey .noArtifact => (⟨.IDLE, p⟩, [.stopCapture])
  | ⟨.RECORDING, _⟩, .hotkey (.artifact s) =>
      (⟨.TRANSCRIBING, true⟩, [.stopCapture, .startTranscription s])
  | ⟨_, _⟩, .transcribeDone t =>
      (⟨.IDLE, false⟩,
        (if t ≠ "" then [.deliver t, .playFinish] else []) ++ [.cleanupArtifact])

/-- A `transcribeDone` event can only be delivered while a worker thread is
outstanding; hotkey presses can always occur. -/
def validEvent (s : Sys) : Event → Prop
  | .hotkey _ => True
  | .transcribeDone _ => s.pending = true

/-- States reachable from `initSys` by valid events. -/
inductive Reachable : Sys → Prop where
  | init : Reachable initSys
  | step {s : Sys} {e : Event} : Reachable s → validEvent s e →
      Reachable (sysStep s e).1

/-! ## String helpers shared by the transcriber and hotkey embeddings

Python-faithful string primitives, defined over the character list. -/

/-- Characters stripped by Python `str.strip()` with no argument (the ASCII
whitespace set; the inputs of interest are ASCII). -/
def isPySpace (c : Char) : Bool :=
  c = ' ' || c = '\t' || c = '\n' || c = '\x0d' || c = '\x0b' || c = '\x0c'

/-- Python `s.strip()`: drop leading and trailing whitespace. -/
def pyStrip (s : String) : String :=
  ⟨((s.data.dropWhile isPySpace).reverse.dropWhile isPySpace).reverse⟩

/-- Python `s.replace(" ", "")`: remove every U+0020 space character. -/
def removeSpaces (s : String) : String :=
  ⟨s.data.filter (fun c => c ≠ ' ')⟩

/-- Whether `needle` is a leading segment of `hay` (character lists). -/
def hasPrefixChars : List Char → List Char → Bool
  | _, [] => true
  | [], _ :: _ => false
  | h :: hs, n :: ns => h = n && hasPrefixChars hs ns

/-- Whether `needle` occurs contiguously in `hay` (character lists). -/
def hasSubChars (needle : List Char) : List Char → Bool
  | [] => needle.isEmpty
  | c :: hs => hasPrefixChars (c :: hs) needle || hasSubChars needle hs

/-- Python `needle in hay` substring test. -/
def strContains (hay needle : String) : Bool :=
  hasSubChars needle.data hay.data

/-- Python `s.lower()` restricted to ASCII (the hotkey strings of
interest). -/
def pyLower (s : String) : String :=
  ⟨s.data.map Char.toLower⟩

/-! ## Transcriber (`app/transcriber.py`) -/

/-- `extract_language_code` (`app/transcriber.py` lines 10-21):
`re.search` for the pattern of a literal `(`, two or more of `a`-`z`, and a
literal `)`; on a match return the letters, otherwise the input unchanged.
The scan finds the leftmost `(` followed by a maximal run of at least two
lowercase letters and then `)`. -/
def extractLangScan : List Char → Option String
  | [] => none
  | '(' :: rest =>
      let letters := rest.takeWhile (fun c => 'a' ≤ c && c ≤ 'z')
      let after := rest.drop letters.length
      if letters.length ≥ 2 && after.head? = some ')' then some ⟨letters⟩
      else extractLangScan rest
  | _ :: rest => extractLangScan rest

/-- `extract_language_code(language)`. -/
def extract_language_code (language : String) : String :=
  match extractLangScan language.data with
  | some code => code
  | none => language

/-- The argument vector built by `Transcriber.transcribe`
(`app/transcriber.py` lines 46-70).  `istr` stands for Python `str` on the
int-valued settings (Lean's `toString` on `Int` agrees with it) and `fstr`
for Python `str` on the float `temperature` (kept as a parameter: float
formatting is not embedded). -/
def buildCmd (cfg : Settings) (audio_file : String) (fstr : ℚ → String) :
    List String :=
  [cfg.whisper_cli_path, "-m", cfg.model_path, "-f", audio_file,
   "-l", extract_language_code cfg.language, "-nt"]
  ++ (if cfg.initial_prompt ≠ "" then ["--prompt", cfg.initial_prompt] else [])
  ++ (if cfg.carry_initial_prompt then ["--carry-initial-prompt"] else [])
  ++ (if cfg.best_of ≠ 5 then ["--best-of", toString cfg.best_of] else [])
  ++ (if cfg.beam_size ≠ 5 then ["--beam-size", toString cfg.beam_size] else [])
  ++ (if cfg.temperature ≠ 0 then ["--temperature", fstr cfg.temperature] else [])

/-- The strings in the engine command that are not fixed flag literals:
the two paths, the audio file, the language code, the prompt, and the
rendered decoding-parameter values.  A configuration in which none of
these happens to spell one of the optional flag literals makes the
omission statements about `buildCmd` meaningful. -/
def looseTokens (cfg : Settings) (audio_file : String) (fstr : ℚ → String) :
    List String :=
  [cfg.whisper_cli_path, cfg.model_path, audio_file,
   extract_language_code cfg.language, cfg.initial_prompt,
   toString cfg.best_of, toString cfg.beam_size, fstr cfg.temperature]

/-- Outcome of `subprocess.run` on the engine command: the call either
raises (any `Exception`, caught by the `except` clause) or completes with
an exit code and captured output streams. -/
inductive RunOutcome where
  | raises : RunOutcome
  | completes (returncode : Int) (stdout stderr : String) : RunOutcome
  deriving Repr, DecidableEq

/-- External facts one `transcribe` call depends on: whether
`os.path.exists` holds for the engine and the model, and what the
subprocess does. -/
structure TransEnv where
  cliExists : Bool
  modelExists : Bool
  run : RunOutcome
  deriving Repr, DecidableEq

/-- Mutable per-process `Transcriber` state: the two `_error_shown` flags
set in `__init__` (`app/transcriber.py` lines 28-29). -/
structure TranscriberState where
  cli_error_shown : Bool
  model_error_shown : Bool
  deriving Repr, DecidableEq

/-- `Transcriber.__init__`: both flags start `False`. -/
def initTranscriber : TranscriberState := ⟨false, false⟩

/-- The user-facing dialogs `show_error` can raise from `transcribe`
(keys into `ERROR_MESSAGES` of `app/error_handler.py`). -/
inductive UserNotice where
  | whisper_not_found : UserNotice
  | model_not_found : UserNotice
  | gpu_error : UserNotice
  | transcription_failed : UserNotice
  deriving Repr, DecidableEq

/-- GPU/memory marker test on the captured stderr (`app/transcriber.py`
line 95): `"CUDA" in stderr or "GPU" in stderr or "memory" in
stderr.lower()`. -/
def gpuMarkers (stderr : String) : Bool :=
  strContains stderr "CUDA" || strContains stderr "GPU" ||
    strContains (pyLower stderr) "memory"

/-- `Transcriber.transcribe` (`app/transcriber.py` lines 31-120), returning
the text result, the updated flag state, and the dialogs shown.  Branches
in source order: missing engine (dialog only if not yet shown), missing
model (likewise), subprocess raising (caught, returns `""`), non-zero exit
(GPU-classified or generic dialog, returns `""`), and success
(`stdout.strip().replace(" ", "")`). -/
def transcribe (st : TranscriberState) (env : TransEnv) :
    String × TranscriberState × List UserNotice :=
  if !env.cliExists then
    if !st.cli_error_shown then
      ("", { st with cli_error_shown := true }, [.whisper_not_found])
    else ("", st, [])
  else if !env.modelExists then
    if !st.model_error_shown then
      ("", { st with model_error_shown := true }, [.model_not_found])
    else ("", st, [])
  else
    match env.run with
    | .raises => ("", st, [])
    | .completes returncode stdout stderr =>
      if returncode ≠ 0 then
        if gpuMarkers stderr then ("", st, [.gpu_error])
        else ("", st, [.transcription_failed])
      else (removeSpaces (pyStrip stdout), st, [])

/-- Repeated `transcribe` calls in one process: threads the
`TranscriberState` through a list of environments, collecting each call's
text result and all dialogs shown. -/
def transcribeCalls (st : TranscriberState) :
    List TransEnv → List String × TranscriberState × List UserNotice
  | [] => ([], st, [])
  | env :: rest =>
      let r := transcribe st env
      let rs := transcribeCalls r.2.1 rest
      (r.1 :: rs.1, rs.2.1, r.2.2 ++ rs.2.2)

/-! ## Hotkey watcher (`app/hotkey_win.py`) -/

/-- The `MODIFIERS` map (`app/hotkey_win.py` lines 18-27): tokens to
`MOD_*` flag values. -/
def MODIFIERS : List (String × Nat) :=
  [("<ctrl>", 0x0002), ("<alt>", 0x0001), ("<shift>", 0x0004), ("<win>", 0x0008),
   ("ctrl", 0x0002), ("alt", 0x0001), ("shift", 0x0004), ("win", 0x0008)]

/-- Value of a nonempty all-digit character run, else `none`. -/
def digitsVal (ds : List Char) : Option Nat :=
  if ds.isEmpty then none
  else if ds.all Char.isDigit then
    some (ds.foldl (fun a c => 10 * a + (c.toNat - 48)) 0)
  else none

/-- Python `int(s)` on the strings reaching it here: optional surrounding
whitespace, an optional sign, then decimal digits; anything else raises
(modelled as `none`, which the source's bare `except: pass` swallows).
Digit-group underscores are not modelled. -/
def pyInt (s : String) : Option Int :=
  match (pyStrip s).data with
  | '-' :: ds => (digitsVal ds).map (fun n => -(n : Int))
  | '+' :: ds => (digitsVal ds).map (fun n => (n : Int))
  | ds => (digitsVal ds).map (fun n => (n : Int))

/-- Python `s.split('+')` for the single-character separator: splits on
every `+`, keeping empty pieces (so `"".split('+') == [""]`). -/
def splitPlus : List Char → List String
  | [] => [""]
  | c :: rest =>
    match splitPlus rest with
    | s :: ss => if c = '+' then "" :: s :: ss else ⟨c :: s.data⟩ :: ss
    | [] => []

/-- `HotkeyListener.parse_hotkey` (`app/hotkey_win.py` lines 37-61) on the
already-lowercased chord string: split on `+`, strip each part; a modifier
token ORs its flag in; otherwise strip `<`/`>`, and a single character sets
`vk = ord(upper)`, while a longer token starting with `f` sets
`vk = 0x70 + (int(rest) - 1)` when the rest parses as an int.  `vk` is an
`Int` because Python computes `0x70 + (f_num - 1)` with an unbounded,
possibly negative `f_num`. -/
def parse_hotkey (hotkey_str : String) : Nat × Int :=
  (splitPlus hotkey_str.data).foldl
    (fun acc part =>
      let part := pyStrip part
      match MODIFIERS.lookup part with
      | some m => (acc.1 ||| m, acc.2)
      | none =>
        let clean_part : List Char := part.data.filter (fun c => c ≠ '<' && c ≠ '>')
        if clean_part.length = 1 then
          (acc.1, ((clean_part.headD ' ').toUpper.toNat : Int))
        else if clean_part.head? = some 'f' then
          match pyInt ⟨clean_part.drop 1⟩ with
          | some f_num => (acc.1, 0x70 + (f_num - 1))
          | none => acc
        else acc)
    (0, 0)

/-- Observable outcome of `HotkeyListener.run`: whether `RegisterHotKey`
was called, whether it succeeded, how often `on_trigger` was invoked, and
whether the invalid-configuration error was logged. -/
structure RunTrace where
  register_attempted : Bool
  registered : Bool
  callback_invocations : Nat
  logged_config_error : Bool
  deriving Repr, DecidableEq

/-- `HotkeyListener.run` (`app/hotkey_win.py` lines 63-113).  The chord was
lowercased in `__init__`; `vk == 0` logs the configuration error and
returns before `RegisterHotKey`; a failed registration logs and returns;
otherwise the message loop invokes `on_trigger` once per `WM_HOTKEY`
message (`wmHotkeyMessages` of them arrive before the loop ends). -/
def hotkeyRun (hotkey_str : String) (registerSucceeds : Bool)
    (wmHotkeyMessages : Nat) : RunTrace :=
  let vk := (parse_hotkey (pyLower hotkey_str)).2
  if vk = 0 then ⟨false, false, 0, true⟩
  else if !registerSucceeds then ⟨true, false, 0, false⟩
  else ⟨true, true, wmHotkeyMessages, false⟩

/-! ## Temp-file retention (`app/recorder.py` lines 27-46) -/

/-- A file in the temp directory as `_cleanup_old_files` sees it: name,
`st_mtime`, the `is_file()` test, and whether its `unlink()` raises (the
per-file `except` logs and continues). -/
structure TempFile where
  name : String
  mtime : Int
  is_file : Bool
  unlink_fails : Bool
  deriving Repr, DecidableEq

/-- `glob("rec_*.wav")` membership.  For these two fixed affixes the
prefix/suffix tests coincide with the glob (no string shorter than 8
characters can satisfy both, so the affixes never overlap). -/
def matchesRecGlob (name : String) : Bool :=
  hasPrefixChars name.data "rec_".data &&
    hasPrefixChars name.data.reverse ".wav".data.reverse

/-- `expiration = 24 * 60 * 60` seconds (1 day). -/
def expiration : Int := 24 * 60 * 60

/-- A file `_cleanup_old_files` attempts to unlink: matched by the glob,
a regular file, and `now - mtime > expiration` (strictly). -/
def shouldDelete (now : Int) (f : TempFile) : Bool :=
  matchesRecGlob f.name && f.is_file && (now - f.mtime > expiration)

/-- `_cleanup_old_files` as the directory transformer: the files remaining
afterwards.  A file disappears exactly when it was selected for deletion
and its `unlink()` did not fail; every failure is caught (logged) inside
the function, which therefore totally returns to its caller. -/
def cleanup_old_files (now : Int) (files : List TempFile) : List TempFile :=
  files.filter (fun f => !(shouldDelete now f && !f.unlink_fails))

/-! ## Claim-side auxiliary definitions -/

/-- The §4.4 transition table as a relation between the phase before an
event, the event, and the phase after it.  A `transcribeDone` row also
records that finished recognitions only ever fire from `TRANSCRIBING`. -/
def tableStep : Phase → Event → Phase → Prop
  | .IDLE, .hotkey _, p => p = .RECORDING
  | .RECORDING, .hotkey .noArtifact, p => p = .IDLE
  | .RECORDING, .hotkey (.artifact _), p => p = .TRANSCRIBING
  | .TRANSCRIBING, .hotkey _, p => p = .TRANSCRIBING
  | q, .transcribeDone _, p => q = .TRANSCRIBING ∧ p = .IDLE

/-- Modelled from the spec's words, for comparison with the source's
success-path text handling: trim the output, then remove ALL internal
whitespace characters (the spec claims every internal whitespace character
is removed, not only U+0020 spaces). -/
def specTrimAllWhitespace (stdout : String) : String :=
  ⟨(pyStrip stdout).data.filter (fun c => !isPySpace c)⟩

end StdWhisper

namespace StdWhisper

/-! ## Theorems -/

/-- Invariant: a worker thread is outstanding exactly in phase
`TRANSCRIBING`. -/
theorem reachable_pending_iff {s : Sys} (h : Reachable s) :
    s.pending = true ↔ s.phase = .TRANSCRIBING := by
  induction h with
  | init => simp [initSys]
  | @step s e hr hv ih =>
    rcases s with ⟨phase, pending⟩
    cases e with
    | hotkey r =>
      cases phase with
      | IDLE => simpa [sysStep] using ih
      | RECORDING =>
        cases r with
        | noArtifact => simpa [sysStep] using ih
        | artifact s => simp [sysStep]
      | TRANSCRIBING => simpa [sysStep] using ih
    | transcribeDone t =>
      cases phase <;> simp [sysStep]

/-- C1 counterexample: at the boundary the claim fails.  With a single
captured block `[500]` and `silence_threshold = 500` the peak amplitude
equals the threshold exactly; the strict comparison `max_amp <
silence_threshold` in `Recorder.stop` does NOT reject the capture: an
artifact is produced and, on the stop hotkey, the orchestrator moves to
`TRANSCRIBING`, not `IDLE`. -/
theorem C1_boundary_counterexample :
    recorderStop true false [[500]] 500 = .artifact [500] ∧
    (sysStep ⟨.RECORDING, false⟩
        (.hotkey (recorderStop true false [[500]] 500))).1.phase =
      .TRANSCRIBING := by
  decide

/-- C1 (amended): a capture whose peak absolute amplitude is strictly
below the configured silence threshold yields no artifact from
`Recorder.stop` and returns the orchestrator to `IDLE`; at the boundary,
a peak amplitude exactly equal to the threshold is accepted — `stop`
produces an artifact and the phase moves to `TRANSCRIBING`. -/
theorem C1_silence_below_rejected (frames : List (List Int)) (threshold : Int)
    (pending : Bool) :
    ((maxAbsAmp frames.flatten : Int) < threshold →
      recorderStop true false frames threshold = .noArtifact ∧
      (sysStep ⟨.RECORDING, pending⟩
          (.hotkey (recorderStop true false frames threshold))).1.phase =
        .IDLE) ∧
    (frames.flatten ≠ [] → (maxAbsAmp frames.flatten : Int) = threshold →
      recorderStop true false frames threshold = .artifact frames.flatten ∧
      (sysStep ⟨.RECORDING, pending⟩
          (.hotkey (recorderStop true false frames threshold))).1.phase =
        .TRANSCRIBING) := by
  have h0 : recorderStop true false frames threshold =
      (if frames.isEmpty then .noArtifact
       else if frames.flatten.isEmpty then .noArtifact
       else if (maxAbsAmp frames.flatten : Int) < threshold then .noArtifact
       else .artifact frames.flatten) := rfl
  constructor
  · intro hlt
    have hres : recorderStop true false frames threshold = .noArtifact := by
      rw [h0]
      by_cases h1 : frames.isEmpty
      · rw [if_pos h1]
      · rw [if_neg h1]
        by_cases h2 : frames.flatten.isEmpty
        · rw [if_pos h2]
        · rw [if_neg h2, if_pos hlt]
    rw [hres]
    exact ⟨rfl, rfl⟩
  · intro hne heq
    have h1 : ¬frames.isEmpty := by
      intro h
      exact hne (by simpa using congrArg List.flatten (List.isEmpty_iff.mp h))
    have h2 : ¬frames.flatten.isEmpty := by
      simpa [List.isEmpty_iff] using hne
    have h3 : ¬((maxAbsAmp frames.flatten : Int) < threshold) := by
      rw [heq]
      exact lt_irrefl threshold
    have hres : recorderStop true false frames threshold =
        .artifact frames.flatten := by
      rw [h0, if_neg h1, if_neg h2, if_neg h3]
    rw [hres]
    exact ⟨rfl, rfl⟩

/-- Witness for `C1_silence_below_rejected` at frames `[[499]]` and
threshold `500` (strictly below) and frames `[[500]]` at threshold `500`
(the accepted boundary). -/
theorem C1_silence_below_rejected_witness :
    ((maxAbsAmp ([[499]] : List (List Int)).flatten : Int) < 500 ∧
      recorderStop true false [[499]] 500 = .noArtifact) ∧
    (([[500]] : List (List Int)).flatten ≠ [] ∧
      (maxAbsAmp ([[500]] : List (List Int)).flatten : Int) = 500 ∧
      recorderStop true false [[500]] 500 = .artifact [[500]].flatten) :=
  ⟨⟨by decide,
    (((C1_silence_below_rejected [[499]] 500 false).1 (by decide)).1)⟩,
   ⟨by decide, by decide,
    (((C1_silence_below_rejected [[500]] 500 false).2 (by decide) (by decide)).1)⟩⟩

/-- C2: along every valid event sequence from the initial state, each step
follows the §4.4 table (`tableStep`): a hotkey in `IDLE` goes to
`RECORDING`; a hotkey in `RECORDING` goes to `TRANSCRIBING` when an
artifact was produced and to `IDLE` otherwise; a hotkey in `TRANSCRIBING`
stays; a finished recognition goes from `TRANSCRIBING` to `IDLE`.  In
particular no step moves `IDLE` directly to `TRANSCRIBING` or
`TRANSCRIBING` directly to `RECORDING`. -/
theorem C2_transitions_follow_table (s : Sys) (e : Event)
    (hr : Reachable s) (hv : validEvent s e) :
    tableStep s.phase e (sysStep s e).1.phase ∧
    ¬(s.phase = .IDLE ∧ (sysStep s e).1.phase = .TRANSCRIBING) ∧
    ¬(s.phase = .TRANSCRIBING ∧ (sysStep s e).1.phase = .RECORDING) := by
  have hp := reachable_pending_iff hr
  rcases s with ⟨phase, pending⟩
  cases e with
  | hotkey r =>
    cases phase <;> cases r <;> simp [sysStep, tableStep]
  | transcribeDone t =>
    have hph : phase = .TRANSCRIBING := hp.mp hv
    subst hph
    simp [sysStep, tableStep]

/-- Witness for `C2_transitions_follow_table` at the initial state and a
hotkey event. -/
theorem C2_transitions_follow_table_witness :
    Reachable initSys ∧ validEvent initSys (.hotkey .noArtifact) ∧
    (tableStep initSys.phase (.hotkey .noArtifact)
        (sysStep initSys (.hotkey .noArtifact)).1.phase ∧
      ¬(initSys.phase = .IDLE ∧
          (sysStep initSys (.hotkey .noArtifact)).1.phase = .TRANSCRIBING) ∧
      ¬(initSys.phase = .TRANSCRIBING ∧
          (sysStep initSys (.hotkey .noArtifact)).1.phase = .RECORDING)) :=
  ⟨Reachable.init, trivial,
    C2_transitions_follow_table initSys (.hotkey .noArtifact)
      Reachable.init trivial⟩

/-- C3: a hotkey delivered in phase `TRANSCRIBING` leaves the whole
system state unchanged, produces only the ignore-log action, and in
particular starts no second capture and no second recognition
invocation. -/
theorem C3_hotkey_dropped_while_transcribing (pending : Bool)
    (r : StopResult) :
    (sysStep ⟨.TRANSCRIBING, pending⟩ (.hotkey r)).1 =
      ⟨.TRANSCRIBING, pending⟩ ∧
    (sysStep ⟨.TRANSCRIBING, pending⟩ (.hotkey r)).2 = [.logIgnoredHotkey] ∧
    Action.startCapture ∉ (sysStep ⟨.TRANSCRIBING, pending⟩ (.hotkey r)).2 ∧
    ∀ samples : List Int,
      Action.startTranscription samples ∉
        (sysStep ⟨.TRANSCRIBING, pending⟩ (.hotkey r)).2 := by
  refine ⟨rfl, rfl, ?_, ?_⟩ <;> simp [sysStep]

/-- C4: no pipeline failure is fatal.  A stop without an artifact
(recording failure or silent capture) returns the phase to `IDLE`; a
finishing transcription task always returns the phase to `IDLE` whatever
text it carries; each transcriber failure mode (missing engine, missing
model, non-zero exit, subprocess exception) returns `""` so the task does
finish; and from `IDLE` a hotkey starts a fresh cycle (`RECORDING` with a
capture started). -/
theorem C4_failures_return_to_idle :
    (∀ pending : Bool,
      (sysStep ⟨.RECORDING, pending⟩ (.hotkey .noArtifact)).1.phase = .IDLE) ∧
    (∀ (s : Sys) (t : String),
      (sysStep s (.transcribeDone t)).1.phase = .IDLE) ∧
    (∀ (st : TranscriberState) (me : Bool) (r : RunOutcome),
      (transcribe st ⟨false, me, r⟩).1 = "") ∧
    (∀ (st : TranscriberState) (r : RunOutcome),
      (transcribe st ⟨true, false, r⟩).1 = "") ∧
    (∀ (st : TranscriberState) (code : Int) (out err : String), code ≠ 0 →
      (transcribe st ⟨true, true, .completes code out err⟩).1 = "") ∧
    (∀ st : TranscriberState,
      (transcribe st ⟨true, true, .raises⟩).1 = "") ∧
    (∀ (pending : Bool) (r : StopResult),
      (sysStep ⟨.IDLE, pending⟩ (.hotkey r)).1.phase = .RECORDING ∧
        Action.startCapture ∈ (sysStep ⟨.IDLE, pending⟩ (.hotkey r)).2) := by
  refine ⟨fun _ => rfl, ?_, ?_, ?_, ?_, fun st => ?_, ?_⟩
  · intro s t
    rcases s with ⟨ph, pd⟩
    cases ph <;> rfl
  · intro st me r
    rcases st with ⟨a, b⟩
    cases a <;> rfl
  · intro st r
    rcases st with ⟨a, b⟩
    cases b <;> rfl
  · intro st code out err hcode
    have h0 : transcribe st ⟨true, true, .completes code out err⟩ =
        (if code ≠ 0 then
          (if gpuMarkers err then ("", st, [.gpu_error])
           else ("", st, [.transcription_failed]))
        else (removeSpaces (pyStrip out), st, [])) := rfl
    rw [h0, if_pos hcode]
    split <;> rfl
  · rfl
  · intro pending r
    exact ⟨rfl, by simp [sysStep]⟩

/-- Witness for `C4_failures_return_to_idle`: a generic non-zero engine
exit yields the empty result. -/
theorem C4_failures_return_to_idle_witness :
    (2 : Int) ≠ 0 ∧
    (transcribe initTranscriber ⟨true, true, .completes 2 "" "boom"⟩).1 = "" :=
  ⟨by decide,
    C4_failures_return_to_idle.2.2.2.2.1 initTranscriber 2 "" "boom"
      (by decide)⟩

/-- One `transcribe` call and the missing-engine dialog: either the call
shows no such dialog and leaves the `_cli_error_shown` flag as it was, or
the flag was clear, exactly one dialog is shown, and the flag becomes
set. -/
theorem transcribe_whisper_once (st : TranscriberState) (env : TransEnv) :
    ((transcribe st env).2.2.count .whisper_not_found = 0 ∧
      (transcribe st env).2.1.cli_error_shown = st.cli_error_shown) ∨
    (st.cli_error_shown = false ∧
      (transcribe st env).2.2.count .whisper_not_found = 1 ∧
      (transcribe st env).2.1.cli_error_shown = true) := by
  rcases st with ⟨a, b⟩
  rcases env with ⟨ce, me, run⟩
  cases ce with
  | false =>
    cases a with
    | false => exact Or.inr ⟨rfl, rfl, rfl⟩
    | true => exact Or.inl ⟨rfl, rfl⟩
  | true =>
    cases me with
    | false =>
      cases b with
      | false => exact Or.inl ⟨rfl, rfl⟩
      | true => exact Or.inl ⟨rfl, rfl⟩
    | true =>
      cases run with
      | raises => exact Or.inl ⟨rfl, rfl⟩
      | completes code out err =>
        left
        have h0 : transcribe ⟨a, b⟩ ⟨true, true, .completes code out err⟩ =
            (if code ≠ 0 then
              (if gpuMarkers err then ("", ⟨a, b⟩, [.gpu_error])
               else ("", ⟨a, b⟩, [.transcription_failed]))
            else (removeSpaces (pyStrip out), ⟨a, b⟩, [])) := rfl
        rw [h0]
        split
        · split
          · exact ⟨rfl, rfl⟩
          · exact ⟨rfl, rfl⟩
        · exact ⟨rfl, rfl⟩

/-- One `transcribe` call and the missing-model dialog, mirror statement
of `transcribe_whisper_once` for `_model_error_shown`. -/
theorem transcribe_model_once (st : TranscriberState) (env : TransEnv) :
    ((transcribe st env).2.2.count .model_not_found = 0 ∧
      (transcribe st env).2.1.model_error_shown = st.model_error_shown) ∨
    (st.model_error_shown = false ∧
      (transcribe st env).2.2.count .model_not_found = 1 ∧
      (transcribe st env).2.1.model_error_shown = true) := by
  rcases st with ⟨a, b⟩
  rcases env with ⟨ce, me, run⟩
  cases ce with
  | false =>
    cases a with
    | false => exact Or.inl ⟨rfl, rfl⟩
    | true => exact Or.inl ⟨rfl, rfl⟩
  | true =>
    cases me with
    | false =>
      cases b with
      | false => exact Or.inr ⟨rfl, rfl, rfl⟩
      | true => exact Or.inl ⟨rfl, rfl⟩
    | true =>
      cases run with
      | raises => exact Or.inl ⟨rfl, rfl⟩
      | completes code out err =>
        left
        have h0 : transcribe ⟨a, b⟩ ⟨true, true, .completes code out err⟩ =
            (if code ≠ 0 then
              (if gpuMarkers err then ("", ⟨a, b⟩, [.gpu_error])
               else ("", ⟨a, b⟩, [.transcription_failed]))
            else (removeSpaces (pyStrip out), ⟨a, b⟩, [])) := rfl
        rw [h0]
        split
        · split
          · exact ⟨rfl, rfl⟩
          · exact ⟨rfl, rfl⟩
        · exact ⟨rfl, rfl⟩

/-- Across any sequence of calls, the number of missing-engine dialogs is
bounded by one, and by zero once the flag is already set. -/
theorem calls_whisper_count_le (envs : List TransEnv) :
    ∀ st : TranscriberState,
      (transcribeCalls st envs).2.2.count .whisper_not_found ≤
        (if st.cli_error_shown = true then 0 else 1) := by
  induction envs with
  | nil =>
    intro st
    simp [transcribeCalls]
  | cons env rest ih =>
    intro st
    have hsplit : (transcribeCalls st (env :: rest)).2.2 =
        (transcribe st env).2.2 ++
          (transcribeCalls (transcribe st env).2.1 rest).2.2 := rfl
    rw [hsplit, List.count_append]
    rcases transcribe_whisper_once st env with ⟨h1, h2⟩ | ⟨h1, h2, h3⟩
    · have hrest := ih (transcribe st env).2.1
      rw [h2] at hrest
      omega
    · have hrest := ih (transcribe st env).2.1
      rw [h3] at hrest
      simp at hrest
      simp [h1, h2, hrest]

/-- Across any sequence of calls, the number of missing-model dialogs is
bounded by one, and by zero once the flag is already set. -/
theorem calls_model_count_le (envs : List TransEnv) :
    ∀ st : TranscriberState,
      (transcribeCalls st envs).2.2.count .model_not_found ≤
        (if st.model_error_shown = true then 0 else 1) := by
  induction envs with
  | nil =>
    intro st
    simp [transcribeCalls]
  | cons env rest ih =>
    intro st
    have hsplit : (transcribeCalls st (env :: rest)).2.2 =
        (transcribe st env).2.2 ++
          (transcribeCalls (transcribe st env).2.1 rest).2.2 := rfl
    rw [hsplit, List.count_append]
    rcases transcribe_model_once st env with ⟨h1, h2⟩ | ⟨h1, h2, h3⟩
    · have hrest := ih (transcribe st env).2.1
      rw [h2] at hrest
      omega
    · have hrest := ih (transcribe st env).2.1
      rw [h3] at hrest
      simp at hrest
      simp [h1, h2, hrest]

/-- Once the missing-engine dialog flag is set, a run of calls that all
find the engine missing returns `""` each time, shows no dialog, and
leaves the state unchanged. -/
theorem calls_all_cli_missing_shown (envs : List TransEnv) :
    ∀ st : TranscriberState, st.cli_error_shown = true →
      (∀ e ∈ envs, e.cliExists = false) →
      transcribeCalls st envs = (envs.map (fun _ => ""), st, []) := by
  induction envs with
  | nil => intro st _ _; rfl
  | cons env rest ih =>
    intro st hshown hall
    have h1 : transcribe st env = ("", st, []) := by
      rcases st with ⟨a, b⟩
      rcases env with ⟨ce, me, run⟩
      have hc : ce = false := hall _ (List.mem_cons_self _ _)
      subst hc
      have ha : a = true := hshown
      subst ha
      rfl
    have h2 := ih st hshown (fun e he => hall e (List.mem_cons_of_mem _ he))
    simp [transcribeCalls, h1, h2]

/-- Once the missing-model dialog flag is set, a run of calls that all
find the engine present and the model missing returns `""` each time,
shows no dialog, and leaves the state unchanged. -/
theorem calls_all_model_missing_shown (envs : List TransEnv) :
    ∀ st : TranscriberState, st.model_error_shown = true →
      (∀ e ∈ envs, e.cliExists = true ∧ e.modelExists = false) →
      transcribeCalls st envs = (envs.map (fun _ => ""), st, []) := by
  induction envs with
  | nil => intro st _ _; rfl
  | cons env rest ih =>
    intro st hshown hall
    have h1 : transcribe st env = ("", st, []) := by
      rcases st with ⟨a, b⟩
      rcases env with ⟨ce, me, run⟩
      have hc : ce = true := (hall _ (List.mem_cons_self _ _)).1
      have hm : me = false := (hall _ (List.mem_cons_self _ _)).2
      subst hc
      subst hm
      have hb : b = true := hshown
      subst hb
      rfl
    have h2 := ih st hshown (fun e he => hall e (List.mem_cons_of_mem _ he))
    simp [transcribeCalls, h1, h2]

/-- C5: with the engine executable missing, every transcription attempt in
the same process yields the missing-engine failure (result `""`), and the
user-facing dialog appears exactly once, on the first attempt; the same
at-most-once discipline holds independently for the missing-model dialog,
and over an arbitrary sequence of calls each of the two dialogs is shown
at most once per process lifetime. -/
theorem C5_dialogs_shown_at_most_once :
    (∀ envs : List TransEnv, envs ≠ [] → (∀ e ∈ envs, e.cliExists = false) →
      (transcribeCalls initTranscriber envs).1 = envs.map (fun _ => "") ∧
      (transcribeCalls initTranscriber envs).2.2 = [.whisper_not_found]) ∧
    (∀ envs : List TransEnv, envs ≠ [] →
      (∀ e ∈ envs, e.cliExists = true ∧ e.modelExists = false) →
      (transcribeCalls initTranscriber envs).1 = envs.map (fun _ => "") ∧
      (transcribeCalls initTranscriber envs).2.2 = [.model_not_found]) ∧
    (∀ envs : List TransEnv,
      (transcribeCalls initTranscriber envs).2.2.count .whisper_not_found ≤ 1 ∧
      (transcribeCalls initTranscriber envs).2.2.count .model_not_found ≤ 1) := by
  refine ⟨?_, ?_, ?_⟩
  · intro envs hne hall
    cases envs with
    | nil => exact absurd rfl hne
    | cons env rest =>
      have h1 : transcribe initTranscriber env =
          ("", ⟨true, false⟩, [.whisper_not_found]) := by
        rcases env with ⟨ce, me, run⟩
        have hc : ce = false := hall _ (List.mem_cons_self _ _)
        subst hc
        rfl
      have h2 := calls_all_cli_missing_shown rest ⟨true, false⟩ rfl
        (fun e he => hall e (List.mem_cons_of_mem _ he))
      constructor <;> simp [transcribeCalls, h1, h2]
  · intro envs hne hall
    cases envs with
    | nil => exact absurd rfl hne
    | cons env rest =>
      have h1 : transcribe initTranscriber env =
          ("", ⟨false, true⟩, [.model_not_found]) := by
        rcases env with ⟨ce, me, run⟩
        have hc : ce = true := (hall _ (List.mem_cons_self _ _)).1
        have hm : me = false := (hall _ (List.mem_cons_self _ _)).2
        subst hc
        subst hm
        rfl
      have h2 := calls_all_model_missing_shown rest ⟨false, true⟩ rfl
        (fun e he => hall e (List.mem_cons_of_mem _ he))
      constructor <;> simp [transcribeCalls, h1, h2]
  · intro envs
    constructor
    · simpa [initTranscriber] using calls_whisper_count_le envs initTranscriber
    · simpa [initTranscriber] using calls_model_count_le envs initTranscriber

/-- Witness for `C5_dialogs_shown_at_most_once`: two attempts with the
engine missing — both return `""`, one dialog in total. -/
theorem C5_dialogs_shown_at_most_once_witness :
    ([⟨false, true, .raises⟩, ⟨false, false, .raises⟩] : List TransEnv) ≠ [] ∧
    (⟨false, true, .raises⟩ : TransEnv).cliExists = false ∧
    (⟨false, false, .raises⟩ : TransEnv).cliExists = false ∧
    ((transcribeCalls initTranscriber
        [⟨false, true, .raises⟩, ⟨false, false, .raises⟩]).1 =
      ([⟨false, true, .raises⟩, ⟨false, false, .raises⟩] : List TransEnv).map
        (fun _ => "") ∧
    (transcribeCalls initTranscriber
        [⟨false, true, .raises⟩, ⟨false, false, .raises⟩]).2.2 =
      [.whisper_not_found]) :=
  ⟨by decide, rfl, rfl,
    C5_dialogs_shown_at_most_once.1
      [⟨false, true, .raises⟩, ⟨false, false, .raises⟩]
      (by decide) (by decide)⟩

/-- C10: `Transcriber.transcribe` is total over its failure modes and
collapses them all to `""`: a missing engine, a missing model, a non-zero
engine exit (whether GPU-classified or generic), and an exception while
running the subprocess each return the empty string — the same value a
legitimately empty recognition yields — and on an empty text the
orchestrator's finishing step emits no delivery action, only the artifact
cleanup. -/
theorem C10_failure_modes_collapse_to_empty :
    (∀ (st : TranscriberState) (me : Bool) (r : RunOutcome),
      (transcribe st ⟨false, me, r⟩).1 = "") ∧
    (∀ (st : TranscriberState) (r : RunOutcome),
      (transcribe st ⟨true, false, r⟩).1 = "") ∧
    (∀ (st : TranscriberState) (code : Int) (out err : String), code ≠ 0 →
      (transcribe st ⟨true, true, .completes code out err⟩).1 = "") ∧
    (∀ st : TranscriberState,
      (transcribe st ⟨true, true, .raises⟩).1 = "") ∧
    (∀ (st : TranscriberState) (err : String),
      (transcribe st ⟨true, true, .completes 0 "" err⟩).1 = "") ∧
    (∀ s : Sys, (sysStep s (.transcribeDone "")).2 = [.cleanupArtifact]) ∧
    (∀ (s : Sys) (t : String),
      Action.deliver t ∉ (sysStep s (.transcribeDone "")).2) := by
  refine ⟨?_, ?_, ?_, fun st => ?_, fun st err => ?_, ?_, ?_⟩
  · intro st me r
    rcases st with ⟨a, b⟩
    cases a <;> rfl
  · intro st r
    rcases st with ⟨a, b⟩
    cases b <;> rfl
  · intro st code out err hcode
    have h0 : transcribe st ⟨true, true, .completes code out err⟩ =
        (if code ≠ 0 then
          (if gpuMarkers err then ("", st, [.gpu_error])
           else ("", st, [.transcription_failed]))
        else (removeSpaces (pyStrip out), st, [])) := rfl
    rw [h0, if_pos hcode]
    split <;> rfl
  · rfl
  · rfl
  · intro s
    rcases s with ⟨ph, pd⟩
    cases ph <;> simp [sysStep]
  · intro s t
    rcases s with ⟨ph, pd⟩
    cases ph <;> simp [sysStep]

/-- Witness for `C10_failure_modes_collapse_to_empty`: a GPU-classified
non-zero exit yields the empty result. -/
theorem C10_failure_modes_collapse_to_empty_witness :
    (3 : Int) ≠ 0 ∧
    (transcribe initTranscriber
        ⟨true, true, .completes 3 "partial" "CUDA out of memory"⟩).1 = "" :=
  ⟨by decide,
    C10_failure_modes_collapse_to_empty.2.2.1 initTranscriber 3 "partial"
      "CUDA out of memory" (by decide)⟩

/-- C7 counterexample: on a zero exit the code removes only U+0020 space
characters from the trimmed standard output, not all internal whitespace.
For stdout `"a\nb"` the result keeps the internal newline, differing from
the spec-side text with all internal whitespace removed (`"ab"`). -/
theorem C7_internal_whitespace_counterexample :
    (transcribe initTranscriber ⟨true, true, .completes 0 "a\nb" ""⟩).1 =
      "a\nb" ∧
    specTrimAllWhitespace "a\nb" = "ab" ∧
    (transcribe initTranscriber ⟨true, true, .completes 0 "a\nb" ""⟩).1 ≠
      specTrimAllWhitespace "a\nb" ∧
    '\n' ∈
      ((transcribe initTranscriber
          ⟨true, true, .completes 0 "a\nb" ""⟩).1).data := by
  refine ⟨rfl, rfl, by decide, by decide⟩

/-- C7 (amended): on a zero exit code the result text is the standard
output with leading/trailing whitespace trimmed and the internal U+0020
space characters removed (other internal whitespace such as tabs or
newlines is retained); the result never contains a space; an empty result
is not an error — it is returned as empty text, and on empty text the
orchestrator's finishing step emits no delivery action, only the artifact
cleanup. -/
theorem C7_success_text_processing (st : TranscriberState)
    (stdout stderr : String) (s : Sys) :
    (transcribe st ⟨true, true, .completes 0 stdout stderr⟩).1 =
      removeSpaces (pyStrip stdout) ∧
    ' ' ∉ ((transcribe st ⟨true, true, .completes 0 stdout stderr⟩).1).data ∧
    (sysStep s (.transcribeDone "")).2 = [.cleanupArtifact] := by
  refine ⟨rfl, ?_, ?_⟩
  · intro hmem
    have h : ' ' ∈ (removeSpaces (pyStrip stdout)).data := hmem
    simp [removeSpaces] at h
  · rcases s with ⟨ph, pd⟩
    cases ph <;> simp [sysStep]

/-- C8: at buffer construction, `_cleanup_old_files` deletes exactly the
previously written artifacts (files matching `rec_*.wav`) whose
modification time is more than 24 hours (86400 s) in the past and whose
deletion does not itself fail — a failed unlink is caught inside the
function (logged) and the file merely remains; every file whose age is at
most 24 hours is preserved, as is every non-artifact file. -/
theorem C8_retention_window (now : Int) (files : List TempFile)
    (f : TempFile) :
    (f ∈ files → matchesRecGlob f.name = true → f.is_file = true →
      now - f.mtime > expiration → f.unlink_fails = false →
      f ∉ cleanup_old_files now files) ∧
    (f ∈ files → now - f.mtime ≤ expiration →
      f ∈ cleanup_old_files now files) ∧
    (f ∈ files → f.unlink_fails = true → f ∈ cleanup_old_files now files) ∧
    (f ∈ files → matchesRecGlob f.name = false →
      f ∈ cleanup_old_files now files) := by
  refine ⟨?_, ?_, ?_, ?_⟩
  · intro hf hglob hisf hold hok hmem
    rcases List.mem_filter.mp hmem with ⟨-, hkeep⟩
    simp [shouldDelete, hglob, hisf, hok, hold] at hkeep
  · intro hf hyoung
    refine List.mem_filter.mpr ⟨hf, ?_⟩
    have h : (now - f.mtime > expiration) = False := by
      simp only [eq_iff_iff, iff_false, not_lt]
      exact hyoung
    simp [shouldDelete, h]
  · intro hf hfail
    refine List.mem_filter.mpr ⟨hf, ?_⟩
    simp [shouldDelete, hfail]
  · intro hf hglob
    refine List.mem_filter.mpr ⟨hf, ?_⟩
    simp [shouldDelete, hglob]

/-- Witness for `C8_retention_window`: with `now = 1000000`, a 25-hour-old
artifact (`mtime = now - 90000`) is deleted and a 1-hour-old artifact
(`mtime = now - 3600`) is preserved. -/
theorem C8_retention_window_witness :
    ((⟨"rec_1.wav", 910000, true, false⟩ : TempFile) ∈
        ([⟨"rec_1.wav", 910000, true, false⟩,
          ⟨"rec_2.wav", 996400, true, false⟩] : List TempFile) ∧
      (⟨"rec_1.wav", 910000, true, false⟩ : TempFile) ∉
        cleanup_old_files 1000000
          [⟨"rec_1.wav", 910000, true, false⟩,
           ⟨"rec_2.wav", 996400, true, false⟩]) ∧
    ((⟨"rec_2.wav", 996400, true, false⟩ : TempFile) ∈
      cleanup_old_files 1000000
        [⟨"rec_1.wav", 910000, true, false⟩,
         ⟨"rec_2.wav", 996400, true, false⟩]) :=
  ⟨⟨by decide,
    (C8_retention_window 1000000
        [⟨"rec_1.wav", 910000, true, false⟩,
         ⟨"rec_2.wav", 996400, true, false⟩]
        ⟨"rec_1.wav", 910000, true, false⟩).1
      (by decide) (by decide) (by decide) (by decide) (by decide)⟩,
   (C8_retention_window 1000000
        [⟨"rec_1.wav", 910000, true, false⟩,
         ⟨"rec_2.wav", 996400, true, false⟩]
        ⟨"rec_2.wav", 996400, true, false⟩).2.1
      (by decide) (by decide)⟩

/-- C6: the engine argument vector omits `--best-of` when `best_of = 5`,
omits `--beam-size` when `beam_size = 5`, and omits `--temperature` when
`temperature = 0.0`; whenever a value differs from its default the flag
and the rendered value appear verbatim as adjacent tokens.  The
hypotheses rule out the degenerate configurations in which a path, the
prompt, the language code, or a rendered value itself spells one of the
three flag literals. -/
theorem C6_default_decoding_flags_omitted (cfg : Settings)
    (audio_file : String) (fstr : ℚ → String)
    (h1 : "--best-of" ∉ looseTokens cfg audio_file fstr)
    (h2 : "--beam-size" ∉ looseTokens cfg audio_file fstr)
    (h3 : "--temperature" ∉ looseTokens cfg audio_file fstr) :
    (cfg.best_of = 5 → "--best-of" ∉ buildCmd cfg audio_file fstr) ∧
    (cfg.beam_size = 5 → "--beam-size" ∉ buildCmd cfg audio_file fstr) ∧
    (cfg.temperature = 0 → "--temperature" ∉ buildCmd cfg audio_file fstr) ∧
    (cfg.best_of ≠ 5 →
      ["--best-of", toString cfg.best_of] <:+: buildCmd cfg audio_file fstr) ∧
    (cfg.beam_size ≠ 5 →
      ["--beam-size", toString cfg.beam_size] <:+:
        buildCmd cfg audio_file fstr) ∧
    (cfg.temperature ≠ 0 →
      ["--temperature", fstr cfg.temperature] <:+:
        buildCmd cfg audio_file fstr) := by
  simp only [looseTokens, List.mem_cons, List.not_mem_nil, or_false,
    not_or] at h1 h2 h3
  obtain ⟨h1a, h1b, h1c, h1d, h1e, h1f, h1g, h1h⟩ := h1
  obtain ⟨h2a, h2b, h2c, h2d, h2e, h2f, h2g, h2h⟩ := h2
  obtain ⟨h3a, h3b, h3c, h3d, h3e, h3f, h3g, h3h⟩ := h3
  refine ⟨?_, ?_, ?_, ?_, ?_, ?_⟩
  · intro hb hmem
    simp [buildCmd, hb, List.mem_append, List.mem_ite_nil_right,
      h1a, h1b, h1c, h1d, h1e, h1g, h1h] at hmem
  · intro hb hmem
    simp [buildCmd, hb, List.mem_append, List.mem_ite_nil_right,
      h2a, h2b, h2c, h2d, h2e, h2f, h2h] at hmem
  · intro hb hmem
    simp [buildCmd, hb, List.mem_append, List.mem_ite_nil_right,
      h3a, h3b, h3c, h3d, h3e, h3f, h3g] at hmem
  · intro hb
    have heq : buildCmd cfg audio_file fstr =
        ([cfg.whisper_cli_path, "-m", cfg.model_path, "-f", audio_file, "-l",
          extract_language_code cfg.language, "-nt"]
          ++ (if cfg.initial_prompt ≠ "" then ["--prompt", cfg.initial_prompt]
              else [])
          ++ (if cfg.carry_initial_prompt then ["--carry-initial-prompt"]
              else []))
        ++ ["--best-of", toString cfg.best_of]
        ++ ((if cfg.beam_size ≠ 5 then ["--beam-size", toString cfg.beam_size]
             else [])
          ++ (if cfg.temperature ≠ 0 then
                ["--temperature", fstr cfg.temperature]
              else [])) := by
      simp [buildCmd, hb, List.append_assoc]
    rw [heq]
    exact List.infix_append _ _ _
  · intro hb
    have heq : buildCmd cfg audio_file fstr =
        ([cfg.whisper_cli_path, "-m", cfg.model_path, "-f", audio_file, "-l",
          extract_language_code cfg.language, "-nt"]
          ++ (if cfg.initial_prompt ≠ "" then ["--prompt", cfg.initial_prompt]
              else [])
          ++ (if cfg.carry_initial_prompt then ["--carry-initial-prompt"]
              else [])
          ++ (if cfg.best_of ≠ 5 then ["--best-of", toString cfg.best_of]
              else []))
        ++ ["--beam-size", toString cfg.beam_size]
        ++ (if cfg.temperature ≠ 0 then ["--temperature", fstr cfg.temperature]
            else []) := by
      simp [buildCmd, hb, List.append_assoc]
    rw [heq]
    exact List.infix_append _ _ _
  · intro hb
    have heq : buildCmd cfg audio_file fstr =
        ([cfg.whisper_cli_path, "-m", cfg.model_path, "-f", audio_file, "-l",
          extract_language_code cfg.language, "-nt"]
          ++ (if cfg.initial_prompt ≠ "" then ["--prompt", cfg.initial_prompt]
              else [])
          ++ (if cfg.carry_initial_prompt then ["--carry-initial-prompt"]
              else [])
          ++ (if cfg.best_of ≠ 5 then ["--best-of", toString cfg.best_of]
              else [])
          ++ (if cfg.beam_size ≠ 5 then ["--beam-size", toString cfg.beam_size]
              else []))
        ++ ["--temperature", fstr cfg.temperature] ++ [] := by
      simp [buildCmd, hb, List.append_assoc]
    rw [heq]
    exact List.infix_append _ _ _

/-- Witness for `C6_default_decoding_flags_omitted` at a configuration
with `best_of = 3`: the hypotheses hold and `--best-of 3` appears in the
command. -/
theorem C6_default_decoding_flags_omitted_witness :
    ("--best-of" ∉ looseTokens
        { defaultSettings with best_of := 3 } "a.wav" (fun _ => "0.0") ∧
      "--beam-size" ∉ looseTokens
        { defaultSettings with best_of := 3 } "a.wav" (fun _ => "0.0") ∧
      "--temperature" ∉ looseTokens
        { defaultSettings with best_of := 3 } "a.wav" (fun _ => "0.0") ∧
      ({ defaultSettings with best_of := 3 } : Settings).best_of ≠ 5) ∧
    ["--best-of",
        toString ({ defaultSettings with best_of := 3 } : Settings).best_of] <:+:
      buildCmd { defaultSettings with best_of := 3 } "a.wav" (fun _ => "0.0") :=
  ⟨⟨by decide, by decide, by decide, by decide⟩,
    (C6_default_decoding_flags_omitted { defaultSettings with best_of := 3 }
        "a.wav" (fun _ => "0.0") (by decide) (by decide) (by decide)).2.2.2.1
      (by decide)⟩

/-- C9: a chord string whose primary-key token does not resolve to a
non-zero key code makes `HotkeyListener.run` fail fast: it logs the
configuration error and returns without calling `RegisterHotKey` and
without ever invoking the trigger callback, whatever the OS would have
answered and however many hotkey messages would have arrived. -/
theorem C9_unresolvable_chord_fails_fast (hotkey_str : String)
    (registerSucceeds : Bool) (wmHotkeyMessages : Nat)
    (h : (parse_hotkey (pyLower hotkey_str)).2 = 0) :
    hotkeyRun hotkey_str registerSucceeds wmHotkeyMessages =
      ⟨false, false, 0, true⟩ := by
  simp [hotkeyRun, h]

/-- Witness for `C9_unresolvable_chord_fails_fast`: the chord
`"ctrl+alt+xyz"` has a multi-character primary token that is neither a
modifier nor an `f<N>` token, so `vk` stays `0`. -/
theorem C9_unresolvable_chord_fails_fast_witness :
    (parse_hotkey (pyLower "ctrl+alt+xyz")).2 = 0 ∧
    hotkeyRun "ctrl+alt+xyz" true 5 = ⟨false, false, 0, true⟩ :=
  ⟨by decide,
    C9_unresolvable_chord_fails_fast "ctrl+alt+xyz" true 5 (by decide)⟩

end StdWhisper
